import Mathlib

/-!
Verification of the layout-description and reorder-decision logic of the
oneDNN tutorial examples, against their design specification.

The development shallowly embeds the example code:

* `GetStart` — the getting-started ReLU example (`01_get_start.cpp`):
  the stride constants, the `offset` index-mapping lambda, the two memory
  descriptors and their consistency check, and the accuracy-check loop.
* `MFP` — the memory-format-propagation example: the three
  `need_reorder_*` flags, the intermediate-buffer allocation decisions,
  and the argument bindings of the source-reorder call site.
* `Int8Matmul` — the INT8 matmul example: the quantized-output formula
  (modelled from the spec, since the kernel lives in the external
  library), the `C_u8[i] >= zp_C` verification loop of `infer`, and the
  return value of `main`.

Machine integers are modelled as `Int` (no arithmetic in the examples
comes near the `int` overflow range for the shapes used), and
floating-point data values are modelled as exact numbers: every property
verified here is about which indices are touched and how values are
compared, never about rounding of the stored data.
-/

namespace GetStart

/-- Logical tensor extents of the getting-started example:
`const int N = 1, H = 13, W = 13, C = 3`. -/
def N : Int := 1

/-- Height extent of the getting-started example. -/
def H : Int := 13

/-- Width extent of the getting-started example. -/
def W : Int := 13

/-- Channel extent of the getting-started example. -/
def C : Int := 3

/-- `const int stride_N = H * W * C`. -/
def stride_N : Int := H * W * C

/-- `const int stride_H = W * C`. -/
def stride_H : Int := W * C

/-- `const int stride_W = C`. -/
def stride_W : Int := C

/-- `const int stride_C = 1`. -/
def stride_C : Int := 1

/-- The `offset` lambda of the example, exactly as written in the source:
`return n * stride_N + h * stride_H + w * stride_W + stride_C;`.
Note the last summand is `stride_C`, not `c * stride_C`: the channel
index `c` is not used. -/
def offset (n h w _c : Int) : Int :=
  n * stride_N + h * stride_H + w * stride_W + stride_C

/-- The offset formula stated by the spec:
`sum(indices[i] * strides[i] for i in 0..rank)` for the example's
channel-last strides. -/
def offsetSpec (n h w c : Int) : Int :=
  n * stride_N + h * stride_H + w * stride_W + c * stride_C

/-- An index tuple is valid when every index is nonnegative and below its
dimension's extent. -/
def inBounds (n h w c : Int) : Prop :=
  0 ≤ n ∧ n < N ∧ 0 ≤ h ∧ h < H ∧ 0 ≤ w ∧ w < W ∧ 0 ≤ c ∧ c < C

instance (n h w c : Int) : Decidable (inBounds n h w c) := by
  unfold inBounds
  infer_instance

/-- Layout error kinds named by the spec. -/
inductive LayoutError where
  | indexOutOfRange
  | rankMismatch
  | invalidLayoutName
deriving DecidableEq

/-- A call of the example's `offset` lambda, embedded with an explicit
failure channel: the lambda body contains no validation and no throw, so
every call returns normally with the computed value. -/
def offsetRun (n h w c : Int) : Except LayoutError Int :=
  Except.ok (offset n h w c)

/-- A layout descriptor: logical dimensions plus per-dimension strides,
mirroring `dnnl::memory::desc` as the spec's Layout value type. -/
structure Layout where
  dims : List Int
  strides : List Int
deriving DecidableEq

/-- Layout equality: two layouts are equal iff their dims and their
resolved stride vectors are element-wise identical (the comparison
behind `src_md != alt_src_md`). -/
def layoutEquals (a b : Layout) : Bool :=
  decide (a = b)

/-- Strides of a physical dimension ordering, fastest-varying last: each
physical position gets the product of the extents that follow it. -/
def tailProducts : List Int → List Int
  | [] => []
  | _ :: xs => xs.prod :: tailProducts xs

/-- Modelled from the spec: the external library's conversion of the
canonical channel-last (`format_tag::nhwc`) name into strides — "places
the channel dimension with stride 1, and the remaining dimensions get
strides as the product of faster-varying dimension extents". Physical
order is `n, h, w, c`; the result lists dims and strides in the logical
`{N, C, H, W}` order used by the example's `memory::desc` calls. -/
def make_canonical_nhwc (n c h w : Int) : Layout :=
  match tailProducts [n, h, w, c] with
  | [sn, sh, sw, sc] => { dims := [n, c, h, w], strides := [sn, sc, sh, sw] }
  | _ => { dims := [], strides := [] }

/-- The spec's `make_strided`: wrap an explicit stride vector. -/
def make_strided (dims strides : List Int) : Layout :=
  { dims := dims, strides := strides }

/-- `src_md`: dims `{N, C, H, W}` with `format_tag::nhwc`. -/
def src_md : Layout := make_canonical_nhwc N C H W

/-- `alt_src_md`: dims `{N, C, H, W}` with explicit strides
`{stride_N, stride_C, stride_H, stride_W}`. -/
def alt_src_md : Layout :=
  make_strided [N, C, H, W] [stride_N, stride_C, stride_H, stride_W]

/-- The example's descriptor-consistency check: it throws
`"Memory descriptor initialization mismatch."` iff `src_md != alt_src_md`. -/
def descCheckThrows : Bool :=
  ! layoutEquals src_md alt_src_md

/-- The `expected` value of the accuracy-check loop:
`image[off] < 0 ? 0.f : image[off]`. -/
def reluExpected (x : Int) : Int :=
  if x < 0 then 0 else x

/-- The accuracy-check loop of the example: for every logical tuple
`(n, h, w, c)` it compares `relu_image` against `reluExpected image` at
the physical position computed by the example's `offset` lambda, and
returns `true` iff no comparison fails (i.e. the example does not throw
`"Accuracy check failed."`). Buffers are functions from physical offset
to stored value. -/
def accuracyCheckPasses (image relu_image : Int → Int) : Bool :=
  (List.range N.toNat).all fun n =>
    (List.range H.toNat).all fun h =>
      (List.range W.toNat).all fun w =>
        (List.range C.toNat).all fun c =>
          relu_image (offset n h w c) == reluExpected (image (offset n h w c))

end GetStart

namespace MFP

/-- The buffers in play in the memory-format-propagation example: the
three user memories created with fixed format tags, and the scratch
memories freshly allocated from the primitive descriptors. -/
inductive Buf where
  | srcMem
  | weightsMem
  | dstMem
  | freshConvSrc
  | freshConvWeights
  | freshConvDst
  | freshPoolDst
deriving DecidableEq

/-- The memory descriptors the example compares. Descriptors chosen by
the library (`conv_pd.*_desc()`, `pool_pd.dst_desc()`) are opaque
values; only their equality with the user descriptors matters to the
example's logic, so they are modelled as plain numbers compared for
equality. -/
structure Descs where
  convSrcDesc : Nat
  convWeightsDesc : Nat
  convDstDesc : Nat
  poolDstDesc : Nat
  srcMemDesc : Nat
  weightsMemDesc : Nat
  dstMemDesc : Nat

/-- `bool need_reorder_src = conv_pd.src_desc() != src_mem.get_desc();` -/
def need_reorder_src (st : Descs) : Bool :=
  st.convSrcDesc != st.srcMemDesc

/-- `bool need_reorder_weights = conv_pd.weights_desc() != weights_mem.get_desc();` -/
def need_reorder_weights (st : Descs) : Bool :=
  st.convWeightsDesc != st.weightsMemDesc

/-- `bool need_reorder_dst = conv_pd.dst_desc() != dst_mem.get_desc();` -/
def need_reorder_dst (st : Descs) : Bool :=
  st.convDstDesc != st.dstMemDesc

/-- `auto conv_src_mem = need_reorder_dst ? memory(conv_pd.src_desc(), eng) : src_mem;`
— exactly as in the source: the condition tested is `need_reorder_dst`,
not `need_reorder_src`. -/
def conv_src_mem (st : Descs) : Buf :=
  if need_reorder_dst st then Buf.freshConvSrc else Buf.srcMem

/-- `auto conv_weights_mem = need_reorder_weights ? memory(conv_pd.weights_desc(), eng) : weights_mem;` -/
def conv_weights_mem (st : Descs) : Buf :=
  if need_reorder_weights st then Buf.freshConvWeights else Buf.weightsMem

/-- `auto pool_dst_mem = need_reorder_dst ? memory(pool_pd.dst_desc(), eng) : dst_mem;` -/
def pool_dst_mem (st : Descs) : Buf :=
  if need_reorder_dst st then Buf.freshPoolDst else Buf.dstMem

/-- The `DNNL_ARG_FROM` binding of the source reorder's `execute` call
(run when `need_reorder_src` holds): `{DNNL_ARG_FROM, src_mem}`. -/
def srcReorderArgFrom (_st : Descs) : Buf :=
  Buf.srcMem

/-- The `DNNL_ARG_TO` binding of the source reorder's `execute` call:
`{DNNL_ARG_TO, conv_weights_mem}` — the source binds the weights scratch
buffer, not `conv_src_mem`. -/
def srcReorderArgTo (st : Descs) : Buf :=
  conv_weights_mem st

/-- The buffers a reorder execution writes: exactly the buffer bound to
its `DNNL_ARG_TO` tag. -/
def srcReorderWrites (st : Descs) : List Buf :=
  [srcReorderArgTo st]

end MFP

namespace Int8Matmul

/-- `int32_t zp_A = 128` (source zero point of the `infer` function). -/
def zp_A : Int := 128

/-- `int32_t zp_C = 40` (destination zero point of the `infer` function). -/
def zp_C : Int := 40

/-- Saturation of an integer to the `uint8_t` range, applied when the
computed destination value is stored as `u8`. -/
def satU8 (x : Int) : Int :=
  min 255 (max 0 x)

/-- Modelled from the spec: the external library's MatMul primitive with
run-time zero points, per-column output scales and a fused ReLU post-op,
computing `C_u8 = ReLU(scale[:] * (A_u8 - zp_A) * B_s8) + zp_C` (the
formula documented at the primitive's creation site). The `f32`
accumulator value is modelled exactly as a rational; the final `u8`
conversion rounds to nearest and saturates. -/
def matmulOut (Kdim : Nat) (scale : Nat → ℚ) (A B : Nat → Nat → Int)
    (zpA zpC : Int) (i j : Nat) : Int :=
  satU8 (round (max 0 (scale j *
    (Finset.range Kdim).sum fun k => ((A i k : ℚ) - (zpA : ℚ)) * (B k j : ℚ))) + zpC)

/-- The verification loop of `infer`:
`for i: if (C_u8[i] < zp_C) return 1; return 0`. -/
def inferCheck (zpC : Int) (cs : List Int) : Int :=
  if cs.any (fun x => decide (x < zpC)) then 1 else 0

/-- The message printed by the matmul example's `main`:
`std::cout << (rc ? "failed" : "passed")`. -/
def mainMessage (rc : Int) : String :=
  if rc == 0 then "passed" else "failed"

/-- The value returned by the matmul example's `main`: the source ends
with `return 0;` on the non-exception path, whatever `rc` was. -/
def mainReturn (_rc : Int) : Int :=
  0

end Int8Matmul

namespace GetStart

/-- An image whose pre-step values are all `-1` (every expected ReLU
output is `0`). -/
def badImage : Int → Int := fun _ => -1

/-- A post-step buffer that is the correct ReLU output everywhere except
at physical offset `0`, where it holds `-7`. -/
def badRelu : Int → Int := fun off => if off = 0 then -7 else 0

end GetStart

namespace MFP

/-- A descriptor state in which the convolution's chosen source
descriptor equals the user's (`need_reorder_src` is false) while the
destination descriptors differ (`need_reorder_dst` is true). -/
def descsSrcEqDstNe : Descs :=
  { convSrcDesc := 0, convWeightsDesc := 0, convDstDesc := 0, poolDstDesc := 0,
    srcMemDesc := 0, weightsMemDesc := 0, dstMemDesc := 1 }

/-- A descriptor state in which both the source and the destination
descriptors differ from the user's (`need_reorder_src` and
`need_reorder_dst` both true). -/
def descsSrcNeDstNe : Descs :=
  { convSrcDesc := 5, convWeightsDesc := 0, convDstDesc := 7, poolDstDesc := 0,
    srcMemDesc := 0, weightsMemDesc := 0, dstMemDesc := 1 }

end MFP

/-- C1: the claim states that `offset` returns
`sum(indices[i] * strides[i])`, so that `(0,0,0,2)` maps to `2`. The
source's lambda adds `stride_C` instead of `c * stride_C`; at
`(n,h,w,c) = (0,0,0,2)` it returns `1`, not the claimed `2`. -/
theorem C1_offset_drops_channel_term :
    GetStart.offset 0 0 0 2 = 1 ∧ GetStart.offsetSpec 0 0 0 2 = 2 ∧
    GetStart.offset 0 0 0 2 ≠ GetStart.offsetSpec 0 0 0 2 := by
  decide

/-- C3: the claim states that the example's offset mapping is injective
over the valid index tuples of shape `N=1,H=13,W=13,C=3`. The source's
lambda ignores the channel index, so the distinct valid tuples
`(0,0,0,0)` and `(0,0,0,1)` map to the same physical offset. -/
theorem C3_offset_not_injective :
    GetStart.inBounds 0 0 0 0 ∧ GetStart.inBounds 0 0 0 1 ∧
    (0 : Int) ≠ 1 ∧ GetStart.offset 0 0 0 0 = GetStart.offset 0 0 0 1 := by
  decide

/-- C2: a layout built from the canonical channel-last name equals the
layout built from the equivalent explicit stride vector
`{H*W*C, 1, W*C, C}`, for every shape; in particular the example's
`src_md == alt_src_md` consistency check does not throw. -/
theorem C2_canonical_equals_strided (n c h w : Int) :
    GetStart.layoutEquals (GetStart.make_canonical_nhwc n c h w)
      (GetStart.make_strided [n, c, h, w] [h * w * c, 1, w * c, c]) = true ∧
    GetStart.layoutEquals GetStart.src_md GetStart.alt_src_md = true ∧
    GetStart.descCheckThrows = false := by
  refine ⟨?_, by decide, by decide⟩
  simp [GetStart.layoutEquals, GetStart.make_canonical_nhwc, GetStart.make_strided,
    GetStart.tailProducts, mul_assoc]

/-- C7: the claim states that `offset` fails with `IndexOutOfRange` at
the upper boundary `index == extent`. The source's lambda performs no
validation: at `(n,h,w,c) = (0,13,0,0)` — where `h` equals the extent
`H = 13` — it silently returns the offset `508` instead of failing. -/
theorem C7_counterexample_out_of_range_returns :
    ¬ GetStart.inBounds 0 13 0 0 ∧
    GetStart.offsetRun 0 13 0 0 = Except.ok 508 ∧
    GetStart.offsetRun 0 13 0 0 ≠ Except.error GetStart.LayoutError.indexOutOfRange := by
  refine ⟨by decide, rfl, by simp [GetStart.offsetRun]⟩

/-- C7 (amended): the example's `offset` lambda performs no index
validation at all: for every index tuple outside the shape's bounds
(negative or at/above an extent) the call still returns normally with
`n * stride_N + h * stride_H + w * stride_W + stride_C`, and no
`IndexOutOfRange` failure path exists. -/
theorem C7_offset_never_fails (n h w c : Int)
    (_hout : ¬ GetStart.inBounds n h w c) :
    GetStart.offsetRun n h w c = Except.ok (GetStart.offset n h w c) ∧
    (GetStart.offsetRun n h w c).isOk = true := by
  exact ⟨rfl, rfl⟩

/-- C7 witness: the amended statement applied at the boundary tuple
`(0,13,0,0)`, whose `h` index equals the extent `H = 13`. -/
theorem C7_offset_never_fails_witness :
    GetStart.offsetRun 0 13 0 0 = Except.ok (GetStart.offset 0 13 0 0) ∧
    (GetStart.offsetRun 0 13 0 0).isOk = true :=
  C7_offset_never_fails 0 13 0 0 (by decide)

/-- C5: the claim states that any discrepancy between the computed and
expected ReLU values is a hard failure. Because the check loop addresses
the buffers through the `offset` lambda that ignores the channel index,
it only ever inspects offsets of the form `39*h + 3*w + 1` and never
offset `0`: a post-step buffer that is wrong at offset `0` (value `-7`
where `max(0, -1) = 0` is expected) passes the check without throwing. -/
theorem C5_discrepancy_escapes_check :
    GetStart.accuracyCheckPasses GetStart.badImage GetStart.badRelu = true ∧
    GetStart.badRelu 0 ≠ max 0 (GetStart.badImage 0) := by
  constructor
  · decide
  · decide

/-- C6: the claim states that a verification mismatch makes the int8
matmul example terminate with a non-zero status. On an output element
`39 < zp_C = 40` the `infer` check does return `1` and `main` prints
`"failed"`, but `main` ends with `return 0;`: the process exit status is
`0`, not non-zero. -/
theorem C6_failed_check_exits_zero :
    Int8Matmul.inferCheck Int8Matmul.zp_C [39] = 1 ∧
    Int8Matmul.mainMessage 1 = "failed" ∧
    Int8Matmul.mainReturn 1 = 0 := by
  refine ⟨by decide, rfl, rfl⟩

/-- C8: every output element of the quantized matmul model
`C_u8 = ReLU(scale * (A_u8 - zp_A) * B_s8) + zp_C` with `zp_A = 128`
and `zp_C = 40` is at least `zp_C`, for every inner dimension, every
scale vector, and all integer input matrices: the fused ReLU makes the
accumulator nonnegative, so after rounding, adding `zp_C` and saturating
to the `u8` range the stored value is at least `zp_C`. -/
theorem C8_output_ge_zp_C (Kdim : Nat) (scale : Nat → ℚ)
    (A B : Nat → Nat → Int) (i j : Nat) :
    Int8Matmul.zp_C ≤
      Int8Matmul.matmulOut Kdim scale A B Int8Matmul.zp_A Int8Matmul.zp_C i j := by
  unfold Int8Matmul.matmulOut Int8Matmul.satU8 Int8Matmul.zp_C
  have hq : (0 : ℚ) ≤ max 0 (scale j *
      (Finset.range Kdim).sum fun k =>
        ((A i k : ℚ) - ((Int8Matmul.zp_A : Int) : ℚ)) * (B k j : ℚ)) :=
    le_max_left 0 _
  have hr : (0 : Int) ≤ round (max 0 (scale j *
      (Finset.range Kdim).sum fun k =>
        ((A i k : ℚ) - ((Int8Matmul.zp_A : Int) : ℚ)) * (B k j : ℚ))) := by
    rw [round_eq]
    exact Int.floor_nonneg.mpr (by linarith)
  refine le_min (by norm_num) (le_trans (by linarith) (le_max_right 0 _))

/-- C4: the claim states that when the held layout equals the required
layout no new buffer is allocated and the existing one passes through.
In the state where the convolution's source descriptor equals the user's
source descriptor but the destination descriptors differ, line
`auto conv_src_mem = need_reorder_dst ? memory(conv_pd.src_desc(), eng) : src_mem;`
still allocates a fresh source scratch buffer instead of passing
`src_mem` through. -/
theorem C4_equal_layout_still_allocates :
    MFP.need_reorder_src MFP.descsSrcEqDstNe = false ∧
    MFP.conv_src_mem MFP.descsSrcEqDstNe = MFP.Buf.freshConvSrc ∧
    MFP.conv_src_mem MFP.descsSrcEqDstNe ≠ MFP.Buf.srcMem := by
  decide

/-- C10: the convolution source buffer is the freshly allocated
`memory(conv_pd.src_desc(), eng)` exactly when `need_reorder_dst` is
true and is the user's `src_mem` exactly when it is false, and the
choice depends only on `need_reorder_dst`: two descriptor states with
the same `need_reorder_dst` value yield the same `conv_src_mem`,
whatever their `need_reorder_src` values. -/
theorem C10_conv_src_depends_only_on_dst_flag (st st2 : MFP.Descs) :
    (MFP.conv_src_mem st = MFP.Buf.freshConvSrc ↔ MFP.need_reorder_dst st = true) ∧
    (MFP.conv_src_mem st = MFP.Buf.srcMem ↔ MFP.need_reorder_dst st = false) ∧
    (MFP.need_reorder_dst st = MFP.need_reorder_dst st2 →
      MFP.conv_src_mem st = MFP.conv_src_mem st2) := by
  cases h : MFP.need_reorder_dst st <;> cases h2 : MFP.need_reorder_dst st2 <;>
    simp [MFP.conv_src_mem, h, h2]

/-- C10 witness: two states that differ in their `need_reorder_src`
flag but share `need_reorder_dst = true` produce the same
`conv_src_mem`. -/
theorem C10_conv_src_witness :
    MFP.conv_src_mem MFP.descsSrcEqDstNe = MFP.conv_src_mem MFP.descsSrcNeDstNe :=
  (C10_conv_src_depends_only_on_dst_flag MFP.descsSrcEqDstNe MFP.descsSrcNeDstNe).2.2
    (by decide)

/-- C9: whenever the source reorder is executed
(`need_reorder_src = true`), its `DNNL_ARG_TO` argument is bound to
`conv_weights_mem` rather than to `conv_src_mem`, so the buffers the
step writes never include `conv_src_mem`: executing it leaves
`conv_src_mem` unwritten. -/
theorem C9_src_reorder_targets_weights (st : MFP.Descs)
    (_h : MFP.need_reorder_src st = true) :
    MFP.srcReorderArgTo st = MFP.conv_weights_mem st ∧
    MFP.srcReorderArgTo st ≠ MFP.conv_src_mem st ∧
    MFP.conv_src_mem st ∉ MFP.srcReorderWrites st := by
  unfold MFP.srcReorderWrites MFP.srcReorderArgTo MFP.conv_weights_mem MFP.conv_src_mem
  cases MFP.need_reorder_weights st <;> cases MFP.need_reorder_dst st <;> simp

/-- C9 witness: the statement at a concrete state in which the source
reorder is required. -/
theorem C9_src_reorder_targets_weights_witness :
    MFP.srcReorderArgTo MFP.descsSrcNeDstNe = MFP.conv_weights_mem MFP.descsSrcNeDstNe ∧
    MFP.srcReorderArgTo MFP.descsSrcNeDstNe ≠ MFP.conv_src_mem MFP.descsSrcNeDstNe ∧
    MFP.conv_src_mem MFP.descsSrcNeDstNe ∉ MFP.srcReorderWrites MFP.descsSrcNeDstNe :=
  C9_src_reorder_targets_weights MFP.descsSrcNeDstNe (by decide)
